import Mathlib

/-!
Shallow embedding of the wgpu/wry/winit application handler in src/src/lib.rs.

The GPU is modelled as a trace of commands (`GpuCmd`); the outcome of each
`surface.get_current_texture()` attempt inside one `draw_frame` call is
injected through an oracle `acquireOk : Nat → Bool` (attempt number to
success). Opaque GPU handles (surface, device, queue) are modelled as `Unit`;
formats, present modes and alpha modes as `Nat` identifiers. A Rust `unwrap`
panic is modelled as an explicit `panicked` outcome.
-/

namespace SnowPlayer

/-- A GPU color with rational channels, mirroring `wgpu::Color`. -/
structure Color where
  r : Rat
  g : Rat
  b : Rat
  a : Rat
deriving DecidableEq

/-- `wgpu::Color::GREEN`, the clear color used by `draw_frame`. -/
def Color.GREEN : Color := ⟨0, 1, 0, 1⟩

/-- Blend states of `wgpu::BlendState` relevant to the pipeline. -/
inductive BlendState where
  | replace
  | alphaBlending
  | premultipliedAlphaBlending
deriving DecidableEq

/-- `wgpu::ColorWrites` bit mask; `ALL` is all four channel bits set. -/
def ColorWrites.ALL : Nat := 15

/-- `wgpu::TextureUsages::RENDER_ATTACHMENT` bit. -/
def TextureUsages.RENDER_ATTACHMENT : Nat := 16

/-- Mirror of `wgpu::SurfaceConfiguration` as built in `resumed`. -/
structure SurfaceConfiguration where
  usage : Nat
  format : Nat
  width : Nat
  height : Nat
  present_mode : Nat
  alpha_mode : Nat
  view_formats : List Nat
  desired_maximum_frame_latency : Nat
deriving DecidableEq

/-- Mirror of `wgpu::SurfaceCapabilities`: the capability lists reported
for the surface/adapter pair, consumed by index 0 in `resumed`. -/
structure SurfaceCapabilities where
  formats : List Nat
  present_modes : List Nat
  alpha_modes : List Nat
deriving DecidableEq

/-- The three clip-space vertex positions hardcoded in the WGSL vertex
stage `vs_main` (the `positions` array). -/
def vsPositions (i : Fin 3) : Rat × Rat :=
  match i with
  | ⟨0, _⟩ => (0, 1/2)
  | ⟨1, _⟩ => (-1/2, -1/2)
  | ⟨2, _⟩ => (1/2, -1/2)
  | ⟨n + 3, h⟩ => absurd h (by omega)

/-- WGSL `vs_main`: looks up the position for the vertex index and extends
it to a clip-space vec4 with z = 0 and w = 1. -/
def vs_main (vertex_index : Fin 3) : Rat × Rat × Rat × Rat :=
  let pos := vsPositions vertex_index
  (pos.1, pos.2, 0, 1)

/-- WGSL `fs_main`: the constant fragment color `vec4(1.0, 0.0, 0.0, 1.0)`. -/
def fs_main : Color := ⟨1, 0, 0, 1⟩

/-- The pipeline state fixed by `create_render_pipeline` in `resumed`. -/
structure RenderPipeline where
  target_format : Nat
  blend : BlendState
  write_mask : Nat
  vertex_buffer_count : Nat
  vertex_entry : String
  fragment_entry : String
deriving DecidableEq

/-- `device.create_render_pipeline` as called in `resumed`: one color
target of the given format, blend `REPLACE`, write mask `ALL`, no vertex
buffers, entry points `vs_main` and `fs_main`. -/
def create_render_pipeline (format : Nat) : RenderPipeline :=
  { target_format := format
    blend := BlendState.replace
    write_mask := ColorWrites.ALL
    vertex_buffer_count := 0
    vertex_entry := "vs_main"
    fragment_entry := "fs_main" }

/-- GPU-side commands observable at the wgpu boundary, in issue order. -/
inductive GpuCmd where
  | configure (config : SurfaceConfiguration)
  | beginRenderPass (clear : Color)
  | setPipeline (p : RenderPipeline)
  | draw (firstVertex vertexCount firstInstance instanceCount : Nat)
  | endPass
  | submit
  | present
deriving DecidableEq

/-- Mirror of the `AppHandler` struct: every GPU resource is optional,
`None` until the first `resumed` call. -/
structure AppHandler where
  surface : Option Unit
  device : Option Unit
  queue : Option Unit
  render_pipeline : Option RenderPipeline
  config : Option SurfaceConfiguration
  webview : Option Unit
deriving DecidableEq

/-- `AppHandler::new()`: every field starts as `None`. -/
def AppHandler.new : AppHandler :=
  { surface := none
    device := none
    queue := none
    render_pipeline := none
    config := none
    webview := none }

/-- Outcome of one `draw_frame` call: the trace of GPU commands it issued,
or a panic (the `unwrap` on the second failed texture acquisition). -/
inductive DrawResult where
  | ok (trace : List GpuCmd)
  | panicked
deriving DecidableEq

/-- The command sequence recorded and submitted by `draw_frame` once a
frame is acquired: begin a pass clearing to GREEN, set the pipeline, one
draw of vertices 0..3 and instances 0..1, end the pass, submit, present. -/
def renderCmds (pipeline : RenderPipeline) : List GpuCmd :=
  [GpuCmd.beginRenderPass Color.GREEN,
   GpuCmd.setPipeline pipeline,
   GpuCmd.draw 0 3 0 1,
   GpuCmd.endPass,
   GpuCmd.submit,
   GpuCmd.present]

/-- `AppHandler::draw_frame`: a no-op unless surface, device, queue,
render pipeline and config are all present; then it acquires the next
texture, on failure reconfigures once with the stored config and retries,
and panics if the retry also fails. On success it records and submits the
render pass and presents the frame. Attempt `k` of
`surface.get_current_texture()` succeeds iff `acquireOk k`. -/
def draw_frame (h : AppHandler) (acquireOk : Nat → Bool) : DrawResult :=
  match h.surface, h.device, h.queue, h.render_pipeline, h.config with
  | some _, some _, some _, some pipeline, some config =>
    if acquireOk 0 then
      DrawResult.ok (renderCmds pipeline)
    else if acquireOk 1 then
      DrawResult.ok (GpuCmd.configure config :: renderCmds pipeline)
    else
      DrawResult.panicked
  | _, _, _, _, _ => DrawResult.ok []

/-- The `WindowEvent` cases `window_event` distinguishes. -/
inductive WinEvent where
  | resized (width height : Nat)
  | redrawRequested
  | closeRequested
  | other
deriving DecidableEq

/-- Result of one event-handler invocation: the updated handler, how many
times `event_loop.exit()` was called, the GPU commands issued, and whether
the handler panicked. -/
structure StepResult where
  handler : AppHandler
  exitSignals : Nat
  trace : List GpuCmd
  panicked : Bool
deriving DecidableEq

/-- `AppHandler::window_event`: guarded by surface, device and config all
being present (otherwise every window event is dropped). `Resized` stores
the new width and height unconditionally and reconfigures the surface;
`RedrawRequested` runs `draw_frame`; `CloseRequested` calls
`event_loop.exit()`; everything else is a no-op. -/
def window_event (h : AppHandler) (e : WinEvent) (acquireOk : Nat → Bool) : StepResult :=
  match h.surface, h.device, h.config with
  | some _, some _, some config =>
    match e with
    | WinEvent.resized width height =>
      let config2 := { config with width := width, height := height }
      { handler := { h with config := some config2 }
        exitSignals := 0
        trace := [GpuCmd.configure config2]
        panicked := false }
    | WinEvent.redrawRequested =>
      match draw_frame h acquireOk with
      | DrawResult.ok tr => { handler := h, exitSignals := 0, trace := tr, panicked := false }
      | DrawResult.panicked => { handler := h, exitSignals := 0, trace := [], panicked := true }
    | WinEvent.closeRequested =>
      { handler := h, exitSignals := 1, trace := [], panicked := false }
    | WinEvent.other =>
      { handler := h, exitSignals := 0, trace := [], panicked := false }
  | _, _, _ => { handler := h, exitSignals := 0, trace := [], panicked := false }

/-- `AppHandler::resumed`: given the window inner size and the capability
lists reported by `surface.get_capabilities(adapter)`, builds the surface
configuration from the first-listed format, present mode and alpha mode,
applies it, builds the render pipeline targeting `config.format`, and
stores surface, device, queue, config and pipeline (and the webview).
Returns `none` when an indexing `[0]` into an empty capability list would
panic. -/
def resumed (h : AppHandler) (width height : Nat) (caps : SurfaceCapabilities) :
    Option (AppHandler × List GpuCmd) :=
  match caps.formats, caps.present_modes, caps.alpha_modes with
  | format :: _, pm :: _, am :: _ =>
    let config : SurfaceConfiguration :=
      { usage := TextureUsages.RENDER_ATTACHMENT
        format := format
        width := width
        height := height
        present_mode := pm
        alpha_mode := am
        view_formats := []
        desired_maximum_frame_latency := 1 }
    let pipeline := create_render_pipeline config.format
    some ({ surface := some ()
            device := some ()
            queue := some ()
            render_pipeline := some pipeline
            config := some config
            webview := some () },
          [GpuCmd.configure config])
  | _, _, _ => none

/-- The lifecycle events delivered by the winit event loop to the
corresponding `ApplicationHandler` methods. -/
inductive AppEvent where
  | resume (width height : Nat) (caps : SurfaceCapabilities)
  | window (e : WinEvent)
  | aboutToWait
  | suspend
  | deviceEvent
  | memoryWarning
  | newEvents
  | userEvent
deriving DecidableEq

/-- Dispatch of one winit event to the handler methods of `AppHandler`:
`resumed`, `window_event`, `about_to_wait` (which unconditionally calls
`draw_frame`), and the stub methods (`suspended`, `device_event`,
`memory_warning`, `new_events`, `user_event`), which do nothing. -/
def step (h : AppHandler) (e : AppEvent) (acquireOk : Nat → Bool) : StepResult :=
  match e with
  | AppEvent.resume width height caps =>
    match resumed h width height caps with
    | some (h2, tr) => { handler := h2, exitSignals := 0, trace := tr, panicked := false }
    | none => { handler := h, exitSignals := 0, trace := [], panicked := true }
  | AppEvent.window we => window_event h we acquireOk
  | AppEvent.aboutToWait =>
    match draw_frame h acquireOk with
    | DrawResult.ok tr => { handler := h, exitSignals := 0, trace := tr, panicked := false }
    | DrawResult.panicked => { handler := h, exitSignals := 0, trace := [], panicked := true }
  | _ => { handler := h, exitSignals := 0, trace := [], panicked := false }

/-- Outcome of running the event loop over a list of pending events. -/
structure RunResult where
  handler : AppHandler
  exitSignals : Nat
  exited : Bool
  panicked : Bool
deriving DecidableEq

/-- The winit event loop: delivers events in order, stops delivering as
soon as `event_loop.exit()` has been signalled (or the handler panicked),
and reports the total number of exit signals emitted. -/
def runLoop (h : AppHandler) (events : List AppEvent) (acquireOk : Nat → Bool) : RunResult :=
  match events with
  | [] => { handler := h, exitSignals := 0, exited := false, panicked := false }
  | e :: rest =>
    let r := step h e acquireOk
    if r.panicked then
      { handler := r.handler, exitSignals := r.exitSignals, exited := false, panicked := true }
    else if r.exitSignals > 0 then
      { handler := r.handler, exitSignals := r.exitSignals, exited := true, panicked := false }
    else
      let rr := runLoop r.handler rest acquireOk
      { handler := rr.handler
        exitSignals := r.exitSignals + rr.exitSignals
        exited := rr.exited
        panicked := rr.panicked }

/-- All five GPU resource fields of the handler are present (the Active
state of the lifecycle controller). -/
def allPresent (h : AppHandler) : Prop :=
  h.surface.isSome = true ∧ h.device.isSome = true ∧ h.queue.isSome = true ∧
  h.render_pipeline.isSome = true ∧ h.config.isSome = true

/-- A sample Active-state configuration: 800 x 600 with format 0. -/
def sampleConfig : SurfaceConfiguration :=
  { usage := TextureUsages.RENDER_ATTACHMENT
    format := 0
    width := 800
    height := 600
    present_mode := 0
    alpha_mode := 0
    view_formats := []
    desired_maximum_frame_latency := 1 }

/-- A sample handler in the Active state. -/
def sampleHandler : AppHandler :=
  { surface := some ()
    device := some ()
    queue := some ()
    render_pipeline := some (create_render_pipeline 0)
    config := some sampleConfig
    webview := some () }

/-- Oracle: every texture acquisition succeeds. -/
def alwaysOk : Nat → Bool := fun _ => true

/-- Oracle: the first acquisition fails, every later one succeeds. -/
def failOnce : Nat → Bool := fun n => decide (0 < n)

/-- Oracle: every acquisition fails. -/
def failTwice : Nat → Bool := fun _ => false

/-- Claim C1. The claimed zero-size skip is absent from the code:
delivering Resized(0, 300) while Active with a stored 800 x 600
configuration updates the stored configuration to width 0 and height 300
and immediately reapplies it, rather than leaving the configuration
unchanged, so width > 0 no longer holds at the next presentation attempt. -/
theorem resize_zero_applied :
    (window_event sampleHandler (WinEvent.resized 0 300) alwaysOk).handler.config =
      some { sampleConfig with width := 0, height := 300 } ∧
    (window_event sampleHandler (WinEvent.resized 0 300) alwaysOk).handler.config ≠
      sampleHandler.config ∧
    (window_event sampleHandler (WinEvent.resized 0 300) alwaysOk).trace =
      [GpuCmd.configure { sampleConfig with width := 0, height := 300 }] ∧
    { sampleConfig with width := 0, height := 300 : SurfaceConfiguration }.width = 0 := by
  refine ⟨rfl, by decide, rfl, rfl⟩

/-- Claim C5. A redraw request or an idle tick delivered to the freshly
constructed handler (all resource fields absent) is a no-op: the handler
is unchanged, no GPU command is issued, no frame acquired, no exit and no
panic. -/
theorem redraw_before_resume_noop (acquireOk : Nat → Bool) :
    step AppHandler.new (AppEvent.window WinEvent.redrawRequested) acquireOk =
      { handler := AppHandler.new, exitSignals := 0, trace := [], panicked := false } ∧
    step AppHandler.new AppEvent.aboutToWait acquireOk =
      { handler := AppHandler.new, exitSignals := 0, trace := [], panicked := false } ∧
    draw_frame AppHandler.new acquireOk = DrawResult.ok [] :=
  ⟨rfl, rfl, rfl⟩

/-- Claim C9. Before the first resume, every window event is dropped by
the guard in `window_event`: the handler is unchanged and no GPU command
is issued; in particular a close request emits no loop-termination signal,
so the event loop does not exit. -/
theorem window_event_uninitialized_ignored (e : WinEvent) (acquireOk : Nat → Bool) :
    window_event AppHandler.new e acquireOk =
      { handler := AppHandler.new, exitSignals := 0, trace := [], panicked := false } ∧
    (window_event AppHandler.new WinEvent.closeRequested acquireOk).exitSignals = 0 ∧
    (runLoop AppHandler.new [AppEvent.window WinEvent.closeRequested] acquireOk).exited
      = false := by
  refine ⟨?_, rfl, rfl⟩
  cases e <;> rfl

/-- Claim C6. `resumed` configures the surface from the first-listed
format, present mode and alpha mode of the reported capabilities, sets
width and height to the window size, applies exactly that configuration,
and its result does not depend on the prior handler state, so identical
capability lists and window size give an identical configuration. -/
theorem resumed_first_match (h : AppHandler) (width height f pm am : Nat)
    (fs pms ams : List Nat) :
    ∃ h2 cfg,
      resumed h width height ⟨f :: fs, pm :: pms, am :: ams⟩ =
        some (h2, [GpuCmd.configure cfg]) ∧
      h2.config = some cfg ∧
      cfg.format = f ∧ cfg.present_mode = pm ∧ cfg.alpha_mode = am ∧
      cfg.width = width ∧ cfg.height = height ∧
      (∀ h3 caps2, resumed h3 width height caps2 = resumed h width height caps2) := by
  refine ⟨_, _, rfl, rfl, rfl, rfl, rfl, rfl, rfl, ?_⟩
  intro h3 caps2
  rfl

/-- Claim C7. The pipeline built on resume uses blend state replace, the
full color write mask, a color target equal to the configured surface
format, and no vertex buffers; the vertex stage hardcodes the three
clip-space positions (0, 0.5), (-0.5, -0.5), (0.5, -0.5) and the fragment
stage emits the one constant opaque color (1, 0, 0, 1). -/
theorem pipeline_shader_spec (format : Nat) (h : AppHandler)
    (width height f pm am : Nat) (fs pms ams : List Nat) :
    (create_render_pipeline format).blend = BlendState.replace ∧
    (create_render_pipeline format).write_mask = ColorWrites.ALL ∧
    (create_render_pipeline format).target_format = format ∧
    (create_render_pipeline format).vertex_buffer_count = 0 ∧
    vs_main 0 = (0, 1/2, 0, 1) ∧
    vs_main 1 = (-1/2, -1/2, 0, 1) ∧
    vs_main 2 = (1/2, -1/2, 0, 1) ∧
    fs_main = ⟨1, 0, 0, 1⟩ ∧
    fs_main.a = 1 ∧
    (∃ h2 tr cfg,
      resumed h width height ⟨f :: fs, pm :: pms, am :: ams⟩ = some (h2, tr) ∧
      h2.config = some cfg ∧
      h2.render_pipeline = some (create_render_pipeline cfg.format)) := by
  refine ⟨rfl, rfl, rfl, rfl, rfl, rfl, rfl, rfl, rfl,
    ⟨_, _, _, rfl, rfl, rfl⟩⟩

/-- Helper: in the Active state `draw_frame` is determined by the first
two acquisition outcomes. -/
theorem draw_frame_active (h : AppHandler) (p : RenderPipeline)
    (c : SurfaceConfiguration) (acquireOk : Nat → Bool)
    (hs : h.surface = some ()) (hd : h.device = some ()) (hq : h.queue = some ())
    (hrp : h.render_pipeline = some p) (hc : h.config = some c) :
    draw_frame h acquireOk =
      if acquireOk 0 then DrawResult.ok (renderCmds p)
      else if acquireOk 1 then DrawResult.ok (GpuCmd.configure c :: renderCmds p)
      else DrawResult.panicked := by
  unfold draw_frame
  rw [hs, hd, hq, hrp, hc]

/-- Claim C2. On a failed frame acquisition, `draw_frame` reconfigures
exactly once with the stored configuration and retries exactly once: a
success on attempt 0 renders immediately, a failure then a success yields
overall success with exactly one reconfigure command, two consecutive
failures panic, and the result never depends on any attempt beyond the
first two (no further retries). -/
theorem acquire_frame_retry (h : AppHandler) (p : RenderPipeline)
    (c : SurfaceConfiguration) (acquireOk acquireOk2 : Nat → Bool)
    (hs : h.surface = some ()) (hd : h.device = some ()) (hq : h.queue = some ())
    (hrp : h.render_pipeline = some p) (hc : h.config = some c) :
    (acquireOk 0 = true → draw_frame h acquireOk = DrawResult.ok (renderCmds p)) ∧
    (acquireOk 0 = false → acquireOk 1 = true →
      draw_frame h acquireOk = DrawResult.ok (GpuCmd.configure c :: renderCmds p) ∧
      ∀ cfg, GpuCmd.configure cfg ∉ renderCmds p) ∧
    (acquireOk 0 = false → acquireOk 1 = false →
      draw_frame h acquireOk = DrawResult.panicked) ∧
    (acquireOk 0 = acquireOk2 0 → acquireOk 1 = acquireOk2 1 →
      draw_frame h acquireOk = draw_frame h acquireOk2) := by
  have hdf := draw_frame_active h p c acquireOk hs hd hq hrp hc
  have hdf2 := draw_frame_active h p c acquireOk2 hs hd hq hrp hc
  refine ⟨?_, ?_, ?_, ?_⟩
  · intro h0
    rw [hdf, if_pos h0]
  · intro h0 h1
    refine ⟨?_, ?_⟩
    · rw [hdf]
      simp [h0, h1]
    · intro cfg
      simp [renderCmds]
  · intro h0 h1
    rw [hdf]
    simp [h0, h1]
  · intro e0 e1
    rw [hdf, hdf2, e0, e1]

/-- Claim C3. A non-panicking `draw_frame` call issues, after an optional
single reconfigure, exactly the render-pass sequence: begin pass clearing
to the background color, set pipeline, one non-indexed draw of 3 vertices
and 1 instance, end pass, submit, and present last; and the handler state
after a redraw is unchanged, so no frame handle is retained across calls. -/
theorem render_call_structure (h : AppHandler) (p : RenderPipeline)
    (c : SurfaceConfiguration) (acquireOk : Nat → Bool)
    (hs : h.surface = some ()) (hd : h.device = some ()) (hq : h.queue = some ())
    (hrp : h.render_pipeline = some p) (hc : h.config = some c)
    (hok : draw_frame h acquireOk ≠ DrawResult.panicked) :
    (∃ pre, draw_frame h acquireOk = DrawResult.ok (pre ++ renderCmds p) ∧
       (pre = [] ∨ pre = [GpuCmd.configure c])) ∧
    renderCmds p =
      [GpuCmd.beginRenderPass Color.GREEN, GpuCmd.setPipeline p,
       GpuCmd.draw 0 3 0 1, GpuCmd.endPass, GpuCmd.submit, GpuCmd.present] ∧
    (window_event h WinEvent.redrawRequested acquireOk).handler = h := by
  have hdf := draw_frame_active h p c acquireOk hs hd hq hrp hc
  refine ⟨?_, rfl, ?_⟩
  · by_cases h0 : acquireOk 0 = true
    · exact ⟨[], by rw [hdf]; simp [h0], Or.inl rfl⟩
    · by_cases h1 : acquireOk 1 = true
      · exact ⟨[GpuCmd.configure c], by rw [hdf]; simp [h0, h1], Or.inr rfl⟩
      · exact absurd (by rw [hdf]; simp [h0, h1]) hok
  · unfold window_event
    rw [hs, hd, hc]
    dsimp only
    split <;> rfl

/-- Claim C4. A close request delivered while Active calls
`event_loop.exit()` exactly once; the loop delivers no later event, so the
result of the run is the same whatever events were still pending, the
handler is unchanged and the loop terminates. -/
theorem close_requested_exits (h : AppHandler) (c : SurfaceConfiguration)
    (rest : List AppEvent) (acquireOk : Nat → Bool)
    (hs : h.surface = some ()) (hd : h.device = some ()) (hc : h.config = some c) :
    runLoop h (AppEvent.window WinEvent.closeRequested :: rest) acquireOk =
      { handler := h, exitSignals := 1, exited := true, panicked := false } := by
  have hw : step h (AppEvent.window WinEvent.closeRequested) acquireOk =
      { handler := h, exitSignals := 1, trace := [], panicked := false } := by
    show window_event h WinEvent.closeRequested acquireOk = _
    unfold window_event
    rw [hs, hd, hc]
  unfold runLoop
  rw [hw]
  rfl

/-- Claim C8. An idle tick (`about_to_wait`) while Active triggers an
unconditional redraw: with a succeeding acquisition the full render trace
is issued, ending in a present, so a frame is acquired, drawn and
presented on every idle tick. -/
theorem idle_tick_renders (h : AppHandler) (p : RenderPipeline)
    (c : SurfaceConfiguration) (acquireOk : Nat → Bool)
    (hs : h.surface = some ()) (hd : h.device = some ()) (hq : h.queue = some ())
    (hrp : h.render_pipeline = some p) (hc : h.config = some c)
    (hok : acquireOk 0 = true) :
    step h AppEvent.aboutToWait acquireOk =
      { handler := h, exitSignals := 0, trace := renderCmds p, panicked := false } ∧
    GpuCmd.present ∈ renderCmds p ∧
    GpuCmd.draw 0 3 0 1 ∈ renderCmds p ∧
    renderCmds p ≠ [] := by
  have hdf := draw_frame_active h p c acquireOk hs hd hq hrp hc
  refine ⟨?_, by simp [renderCmds], by simp [renderCmds], by simp [renderCmds]⟩
  unfold step
  rw [hdf, if_pos hok]

/-- Helper: the shape of the handler after one dispatched event — it is
unchanged, or only its config field was replaced, or it is the handler
built by a successful `resumed`. -/
theorem step_handler_cases (h : AppHandler) (e : AppEvent) (acq : Nat → Bool) :
    (step h e acq).handler = h ∨
    (∃ cfg, (step h e acq).handler = { h with config := some cfg }) ∨
    (∃ width height caps h2 tr, resumed h width height caps = some (h2, tr) ∧
        (step h e acq).handler = h2) := by
  cases e with
  | resume width height caps =>
    cases hres : resumed h width height caps with
    | none => left; simp [step, hres]
    | some pr =>
      obtain ⟨h2, tr⟩ := pr
      right; right
      exact ⟨width, height, caps, h2, tr, hres, by simp [step, hres]⟩
  | window we =>
    cases we with
    | resized width height =>
      simp only [step, window_event]
      split
      · right; left; exact ⟨_, rfl⟩
      · left; rfl
    | redrawRequested =>
      left
      simp only [step, window_event]
      split
      · split <;> rfl
      · rfl
    | closeRequested =>
      left
      simp only [step, window_event]
      split <;> rfl
    | other =>
      left
      simp only [step, window_event]
      split <;> rfl
  | aboutToWait =>
    left
    simp only [step]
    split <;> rfl
  | suspend => left; rfl
  | deviceEvent => left; rfl
  | memoryWarning => left; rfl
  | newEvents => left; rfl
  | userEvent => left; rfl

/-- Helper: a successful `resumed` leaves every resource field present. -/
theorem resumed_allPresent (h0 : AppHandler) (width height : Nat)
    (caps : SurfaceCapabilities) (h2 : AppHandler) (tr : List GpuCmd)
    (hres : resumed h0 width height caps = some (h2, tr)) : allPresent h2 := by
  obtain ⟨fs, pms, ams⟩ := caps
  cases fs with
  | nil => simp [resumed] at hres
  | cons f fs2 =>
    cases pms with
    | nil => simp [resumed] at hres
    | cons pm pms2 =>
      cases ams with
      | nil => simp [resumed] at hres
      | cons am ams2 =>
        simp only [resumed, Option.some.injEq, Prod.mk.injEq] at hres
        obtain ⟨h2eq, treq⟩ := hres
        subst h2eq
        exact ⟨rfl, rfl, rfl, rfl, rfl⟩

/-- Claim C10. Initialization is monotone: a successful `resumed` leaves
surface, device, queue, pipeline and config all present, and every
dispatched event (resize, redraw, idle, suspend, close or any stub)
preserves that all five are present — no handler ever clears a resource. -/
theorem resources_monotone (h : AppHandler) (e : AppEvent) (acquireOk : Nat → Bool)
    (hp : allPresent h) :
    allPresent (step h e acquireOk).handler ∧
    (∀ h0 width height caps h2 tr,
       resumed h0 width height caps = some (h2, tr) → allPresent h2) := by
  constructor
  · rcases step_handler_cases h e acquireOk with heq | ⟨cfg, heq⟩ |
      ⟨width, height, caps, h2, tr, hres, heq⟩
    · rw [heq]; exact hp
    · rw [heq]
      obtain ⟨hs, hd, hq, hrp, hc⟩ := hp
      exact ⟨hs, hd, hq, hrp, rfl⟩
    · rw [heq]
      exact resumed_allPresent h width height caps h2 tr hres
  · intro h0 width height caps h2 tr hres
    exact resumed_allPresent h0 width height caps h2 tr hres

/-- Witness for claim C2 at the sample Active handler: two consecutive
failed acquisitions panic. -/
theorem acquire_frame_retry_witness :
    (sampleHandler.surface = some () ∧ sampleHandler.config = some sampleConfig) ∧
    draw_frame sampleHandler failTwice = DrawResult.panicked :=
  ⟨⟨rfl, rfl⟩,
   (acquire_frame_retry sampleHandler (create_render_pipeline 0) sampleConfig
      failTwice failTwice rfl rfl rfl rfl rfl).2.2.1 rfl rfl⟩

/-- Witness for claim C3 at the sample Active handler with an always
succeeding acquisition oracle. -/
theorem render_call_structure_witness :
    draw_frame sampleHandler alwaysOk ≠ DrawResult.panicked ∧
    (window_event sampleHandler WinEvent.redrawRequested alwaysOk).handler =
      sampleHandler :=
  ⟨by decide,
   (render_call_structure sampleHandler (create_render_pipeline 0) sampleConfig
      alwaysOk rfl rfl rfl rfl rfl (by decide)).2.2⟩

/-- Witness for claim C4: a close request at the sample Active handler
exits the loop once, skipping the pending idle tick. -/
theorem close_requested_exits_witness :
    sampleHandler.config = some sampleConfig ∧
    runLoop sampleHandler
        [AppEvent.window WinEvent.closeRequested, AppEvent.aboutToWait] alwaysOk =
      { handler := sampleHandler, exitSignals := 1, exited := true, panicked := false } :=
  ⟨rfl,
   close_requested_exits sampleHandler sampleConfig [AppEvent.aboutToWait]
     alwaysOk rfl rfl rfl⟩

/-- Witness for claim C8: an idle tick at the sample Active handler
renders a full frame. -/
theorem idle_tick_renders_witness :
    alwaysOk 0 = true ∧
    step sampleHandler AppEvent.aboutToWait alwaysOk =
      { handler := sampleHandler, exitSignals := 0,
        trace := renderCmds (create_render_pipeline 0), panicked := false } :=
  ⟨rfl,
   (idle_tick_renders sampleHandler (create_render_pipeline 0) sampleConfig
      alwaysOk rfl rfl rfl rfl rfl rfl).1⟩

/-- Witness for claim C10: a suspend event at the sample Active handler
leaves all five resources present. -/
theorem resources_monotone_witness :
    allPresent sampleHandler ∧
    allPresent (step sampleHandler AppEvent.suspend alwaysOk).handler :=
  ⟨⟨rfl, rfl, rfl, rfl, rfl⟩,
   (resources_monotone sampleHandler AppEvent.suspend alwaysOk
      ⟨rfl, rfl, rfl, rfl, rfl⟩).1⟩

end SnowPlayer
